import Mathlib

/-!
Verification of the adaptive performance (ADPF) control core of the Pixel
power HAL (`power-libperfmgr`): the per-session PID controller and heuristic
jank classifier (`aidl/PowerHintSession.cpp`), and the session/vote manager
(`aidl/PowerSessionManager.cpp`).

Modelling conventions:
* `int64_t` / `int32_t` values are embedded as `ℤ` (all the quantities the
  claims touch stay far from the 64-bit overflow boundary, and the source
  performs no intentional wrapping on them); `uint32_t` uclamp values are
  embedded as `ℕ`.
* C++ `double` arithmetic is embedded exactly as `ℚ`; a conversion of a
  non-negative `double` result to an integer type truncates, embedded as
  `Int.floor` (and in general as truncation toward zero, `ratTrunc`).
* C++ integer division (`/` on `int64_t`) truncates toward zero and is
  embedded as `Int.tdiv`.
* `std::optional` configuration fields that the code only reads after
  checking `mHeuristicBoostOn` (always via `.value()`) are embedded as plain
  fields next to a boolean `mHeuristicBoostOn`.
* Wall-clock values (`std::chrono::steady_clock::time_point`) are embedded
  as `ℤ` nanosecond counts.
-/

/-- Session jank classification, `SessionJankyLevel` from `AdpfTypes.h`
(referenced by `PowerHintSession.cpp`). -/
inductive SessionJankyLevel where
  | LIGHT
  | MODERATE
  | SEVERE
deriving DecidableEq, Repr

/-- Truncation of a rational toward zero, the semantics of a C++
`static_cast` from `double` to an integer type: the numerator divided by
the (positive) denominator with truncating division. -/
def ratTrunc (q : ℚ) : ℤ :=
  q.num.tdiv q.den

/-- `ns_to_100us` from `PowerHintSession.cpp`: `ns / 100000` on `int64_t`
(truncating division). -/
def ns_to_100us (ns : ℤ) : ℤ :=
  ns.tdiv 100000

/-- The tunable-profile fields of `AdpfConfig` (`perfmgr/AdpfConfig.h`) that
the session control loop reads.  The heuristic-boost optionals are embedded
unwrapped (the code reads them with `.value()` only after checking
`mHeuristicBoostOn`). -/
structure AdpfConfig where
  mPidOn : Bool
  mPidPo : ℚ
  mPidPu : ℚ
  mPidI : ℚ
  mPidIHigh : ℤ
  mPidILow : ℤ
  mPidDo : ℚ
  mPidDu : ℚ
  mUclampMinInit : ℕ
  mUclampMinHigh : ℕ
  mUclampMinLow : ℕ
  mSamplingWindowP : ℕ
  mSamplingWindowI : ℕ
  mSamplingWindowD : ℕ
  mReportingRateLimitNs : ℤ
  mTargetTimeFactor : ℚ
  mStaleTimeFactor : ℚ
  mHeuristicBoostOn : Bool
  mHBoostModerateJankThreshold : ℕ
  mHBoostOffMaxAvgDurRatio : ℚ
  mHBoostSevereJankPidPu : ℚ
  mHBoostSevereJankThreshold : ℕ
  mHBoostUclampMinCeilingRange : ℕ × ℕ
  mHBoostUclampMinFloorRange : ℕ × ℕ
  mUclampMaxEfficientBase : Option ℤ
  mUclampMaxEfficientOffset : Option ℤ
deriving DecidableEq, Repr

/-- Modelled from the spec: `AdpfConfig::getPidIHighDivI` (declared in
`AdpfConfig.h`; its definition is not under `src/`).  The spec gives the
integral clamp bounds as `PidIHigh/PidI` and `PidILow/PidI`. -/
def AdpfConfig.getPidIHighDivI (cfg : AdpfConfig) : ℤ :=
  ratTrunc ((cfg.mPidIHigh : ℚ) / cfg.mPidI)

/-- Modelled from the spec: `AdpfConfig::getPidILowDivI` (declared in
`AdpfConfig.h`; its definition is not under `src/`), `PidILow/PidI`. -/
def AdpfConfig.getPidILowDivI (cfg : AdpfConfig) : ℤ :=
  ratTrunc ((cfg.mPidILow : ℚ) / cfg.mPidI)

/-- `PowerHintSession::updateSessionJankState` (`PowerHintSession.cpp`
lines 305–330).  The thresholds and ratio bound are the unwrapped
heuristic-boost config values; `numOfJankFrames` is the missed-cycle count,
`durationVariance` the max/avg duration ratio. -/
def updateSessionJankState (cfg : AdpfConfig) (oldState : SessionJankyLevel)
    (numOfJankFrames : ℕ) (durationVariance : ℚ) (isLowFPS : Bool) :
    SessionJankyLevel :=
  if isLowFPS then
    SessionJankyLevel.LIGHT
  else if numOfJankFrames < cfg.mHBoostModerateJankThreshold then
    if oldState = SessionJankyLevel.LIGHT ∨
        durationVariance < cfg.mHBoostOffMaxAvgDurRatio then
      SessionJankyLevel.LIGHT
    else
      SessionJankyLevel.MODERATE
  else if numOfJankFrames < cfg.mHBoostSevereJankThreshold then
    SessionJankyLevel.MODERATE
  else
    SessionJankyLevel.SEVERE

/-- Start index of a sampling window (`PowerHintSession.cpp` lines 74–79):
`w == 0 || w > length ? 0 : length - w`. -/
def windowStart (w len : ℕ) : ℕ :=
  if w = 0 ∨ len < w then 0 else len - w

/-- The running accumulators of the PID loop in
`PowerHintSession::convertWorkDurationToBoostByPid` (lines 81–103):
windowed error sum, windowed derivative sum, the session's persistent
integral error and previous error. -/
structure PidAcc where
  err_sum : ℤ
  derivative_sum : ℤ
  integral_error : ℤ
  previous_error : ℤ
deriving DecidableEq, Repr

/-- One iteration of the PID loop (lines 89–102) at sample index `i` with
per-sample error `error` (already in 100µs units): the derivative sum takes
`error - previous_error` inside the D window, the error sum accumulates
inside the P window, and the integral accumulates `error * dt` inside the I
window, clamped to `[getPidILowDivI, getPidIHighDivI]` (the `std::min` is
applied before the `std::max`). -/
def pidStep (cfg : AdpfConfig) (dt : ℤ) (p_start i_start d_start i : ℕ)
    (acc : PidAcc) (error : ℤ) : PidAcc :=
  { err_sum := if p_start ≤ i then acc.err_sum + error else acc.err_sum
    derivative_sum :=
      if d_start ≤ i then acc.derivative_sum + (error - acc.previous_error)
      else acc.derivative_sum
    integral_error :=
      if i_start ≤ i then
        max cfg.getPidILowDivI
          (min cfg.getPidIHighDivI (acc.integral_error + error * dt))
      else acc.integral_error
    previous_error := error }

/-- All intermediate accumulator states of the PID loop, processing the
errors list starting at sample index `idx`. -/
def pidScanFrom (cfg : AdpfConfig) (dt : ℤ) (p_start i_start d_start : ℕ) :
    ℕ → PidAcc → List ℤ → List PidAcc
  | _, _, [] => []
  | idx, acc, e :: rest =>
      pidStep cfg dt p_start i_start d_start idx acc e ::
        pidScanFrom cfg dt p_start i_start d_start (idx + 1)
          (pidStep cfg dt p_start i_start d_start idx acc e) rest

/-- The final accumulator state of the PID loop. -/
def pidFoldFrom (cfg : AdpfConfig) (dt : ℤ) (p_start i_start d_start : ℕ) :
    ℕ → PidAcc → List ℤ → PidAcc
  | _, acc, [] => acc
  | idx, acc, e :: rest =>
      pidFoldFrom cfg dt p_start i_start d_start (idx + 1)
        (pidStep cfg dt p_start i_start d_start idx acc e) rest

/-- Per-sample errors (line 90): `ns_to_100us(actual - target)` for each
reported duration. -/
def pidErrors (targetNs : ℤ) (durations : List ℤ) : List ℤ :=
  durations.map (fun d => ns_to_100us (d - targetNs))

/-- The accumulator produced by the full PID loop of
`convertWorkDurationToBoostByPid` for a batch of reported durations, given
the session's incoming integral and previous error.  The loop starts at
`min(p_start, i_start, d_start)` (line 83); earlier samples are skipped
entirely. -/
def convertAcc (cfg : AdpfConfig) (targetNs integral0 prev0 : ℤ)
    (durations : List ℤ) : PidAcc :=
  let len := durations.length
  let p_start := windowStart cfg.mSamplingWindowP len
  let i_start := windowStart cfg.mSamplingWindowI len
  let d_start := windowStart cfg.mSamplingWindowD len
  let m0 := min p_start (min i_start d_start)
  let dt := ns_to_100us targetNs
  pidFoldFrom cfg dt p_start i_start d_start m0 ⟨0, 0, integral0, prev0⟩
    ((pidErrors targetNs durations).drop m0)

/-- The heuristic-boost jank blend factor `JankyFactor`
(`PowerHintSession.cpp` lines 109–115 and 437–443): `0` below the moderate
jank threshold, otherwise
`(jankFrames - moderateThreshold) / (severeThreshold - moderateThreshold)`. -/
def jankyFactor (cfg : AdpfConfig) (jankyFrameNum : ℕ) : ℚ :=
  if jankyFrameNum < cfg.mHBoostModerateJankThreshold then 0
  else ((jankyFrameNum : ℚ) - (cfg.mHBoostModerateJankThreshold : ℚ)) /
    ((cfg.mHBoostSevereJankThreshold : ℚ) - (cfg.mHBoostModerateJankThreshold : ℚ))

/-- The active undershoot proportional gain `pid_pu_active`
(`PowerHintSession.cpp` lines 105–121).  With heuristic boost on, the
target gain is `hboostPidPu = min(mHBoostSevereJankPidPu, mPidPu)`; at
`MODERATE` jank the base gain is blended toward it by `JankyFactor`, at
`SEVERE` it is used directly. -/
def pid_pu_active (cfg : AdpfConfig) (jankyLevel : SessionJankyLevel)
    (jankyFrameNum : ℕ) : ℚ :=
  if cfg.mHeuristicBoostOn then
    let hboostPidPu := min cfg.mHBoostSevereJankPidPu cfg.mPidPu
    match jankyLevel with
    | SessionJankyLevel.MODERATE =>
        cfg.mPidPu + jankyFactor cfg jankyFrameNum * (hboostPidPu - cfg.mPidPu)
    | SessionJankyLevel.SEVERE => hboostPidPu
    | SessionJankyLevel.LIGHT => cfg.mPidPu
  else cfg.mPidPu

/-- The proportional gain actually applied to the windowed error sum
(line 122): the overshoot gain `mPidPo` when `err_sum > 0`, otherwise
`pid_pu_active`. -/
def proportionalGain (cfg : AdpfConfig) (jankyLevel : SessionJankyLevel)
    (jankyFrameNum : ℕ) (err_sum : ℤ) : ℚ :=
  if 0 < err_sum then cfg.mPidPo else pid_pu_active cfg jankyLevel jankyFrameNum

/-- The effective uclamp-min floor and ceiling used to clamp the control
variable in `reportActualWorkDuration` (`PowerHintSession.cpp` lines
424–455): the base `[mUclampMinLow, mUclampMinHigh]`, widened when
heuristic boost is on and the jank level is `MODERATE` (blend by
`JankyFactor` between the range endpoints, each first raised to the base
value; the `double` result truncates back to an unsigned) or `SEVERE`
(the raised upper endpoints). -/
def effUclampBounds (cfg : AdpfConfig) (jankyLevel : SessionJankyLevel)
    (jankyFrameNum : ℕ) : ℕ × ℕ :=
  if cfg.mHeuristicBoostOn then
    let hboostMinUclampMinFloor := max cfg.mUclampMinLow cfg.mHBoostUclampMinFloorRange.1
    let hboostMaxUclampMinFloor := max cfg.mUclampMinLow cfg.mHBoostUclampMinFloorRange.2
    let hboostMinUclampMinCeiling := max cfg.mUclampMinHigh cfg.mHBoostUclampMinCeilingRange.1
    let hboostMaxUclampMinCeiling := max cfg.mUclampMinHigh cfg.mHBoostUclampMinCeilingRange.2
    match jankyLevel with
    | SessionJankyLevel.MODERATE =>
        let f := jankyFactor cfg jankyFrameNum
        ((ratTrunc ((hboostMinUclampMinFloor : ℚ) +
            ((hboostMaxUclampMinFloor : ℚ) - (hboostMinUclampMinFloor : ℚ)) * f)).toNat,
         (ratTrunc ((hboostMinUclampMinCeiling : ℚ) +
            ((hboostMaxUclampMinCeiling : ℚ) - (hboostMinUclampMinCeiling : ℚ)) * f)).toNat)
    | SessionJankyLevel.SEVERE =>
        (hboostMaxUclampMinFloor, hboostMaxUclampMinCeiling)
    | SessionJankyLevel.LIGHT => (cfg.mUclampMinLow, cfg.mUclampMinHigh)
  else (cfg.mUclampMinLow, cfg.mUclampMinHigh)

/-- The clamped control-variable update of `reportActualWorkDuration`
(lines 457–459): `next_min = max(floor, min(ceiling, pid + output))`. -/
def nextPidControl (cfg : AdpfConfig) (jankyLevel : SessionJankyLevel)
    (jankyFrameNum : ℕ) (pid output : ℤ) : ℤ :=
  let b := effUclampBounds cfg jankyLevel jankyFrameNum
  max (b.1 : ℤ) (min (b.2 : ℤ) (pid + output))

/-- The control-variable effect of one successful `reportActualWorkDuration`
call: with PID control off the variable is pinned to `mUclampMinHigh`
(lines 407–410), otherwise it is the clamped update. -/
def reportStepPid (cfg : AdpfConfig) (jankyLevel : SessionJankyLevel)
    (jankyFrameNum : ℕ) (pid output : ℤ) : ℤ :=
  if cfg.mPidOn then nextPidControl cfg jankyLevel jankyFrameNum pid output
  else (cfg.mUclampMinHigh : ℤ)

/-- The control variable after each call of a finite sequence of successful
reports; each step carries the session's jank state at that call and the
PID output computed for that batch. -/
def runReports (cfg : AdpfConfig) :
    ℤ → List (SessionJankyLevel × ℕ × ℤ) → List ℤ
  | _, [] => []
  | pid, s :: rest =>
      reportStepPid cfg s.1 s.2.1 pid s.2.2 ::
        runReports cfg (reportStepPid cfg s.1 s.2.1 pid s.2.2) rest

/-- Binder result status: `ok` / `EX_ILLEGAL_STATE` / `EX_ILLEGAL_ARGUMENT` /
`EX_UNSUPPORTED_OPERATION` as returned through `ndk::ScopedAStatus`. -/
inductive Status where
  | ok
  | illegalState
  | illegalArgument
  | unsupportedOperation
deriving DecidableEq, Repr

/-- An entry of the `WorkDuration` batch passed to
`reportActualWorkDuration`. -/
structure WorkDuration where
  durationNanos : ℤ
  cpuDurationNanos : ℤ
  gpuDurationNanos : ℤ
deriving DecidableEq, Repr

/-- The vote kinds of `AdpfVoteType` (`AdpfTypes.h`); the ledger is keyed by
the kind (the source keys by its integer value). -/
inductive AdpfVoteType where
  | CPU_VOTE_DEFAULT
  | CPU_LOAD_UP
  | CPU_LOAD_RESET
  | CPU_LOAD_RESUME
  | VOTE_POWER_EFFICIENCY
  | GPU_CAPACITY
  | GPU_LOAD_UP
  | GPU_LOAD_RESET
deriving DecidableEq, Repr

/-- Whether a vote kind is a CPU uclamp vote (carries a `(min, max)` range)
rather than a GPU-capacity or marker vote. -/
def AdpfVoteType.isCpuVote : AdpfVoteType → Bool
  | AdpfVoteType.CPU_VOTE_DEFAULT => true
  | AdpfVoteType.CPU_LOAD_UP => true
  | AdpfVoteType.CPU_LOAD_RESET => true
  | AdpfVoteType.CPU_LOAD_RESUME => true
  | _ => false

/-- The kernel uclamp bounds `kUclampMin`/`kUclampMax` (`AdpfTypes.h`,
referenced throughout the sources): 0 and 1024. -/
def kUclampMin : ℤ := 0

/-- See `kUclampMin`. -/
def kUclampMax : ℤ := 1024

/-- Modelled from the spec: one Vote of the Vote Ledger (`class Votes`,
`UClampVoter.cpp`, not under `src/`).  "Every vote carries `startTime`,
`duration` (its validity window), and a derived `active` boolean"; a CPU
vote carries a `(min, max)` uclamp range. -/
structure VoteEntry where
  active : Bool
  startTime : ℤ
  durationNs : ℤ
  uclampMin : ℤ
  uclampMax : ℤ
deriving DecidableEq, Repr

/-- A vote's expiry deadline: `startTime + duration`. -/
def VoteEntry.timeout (v : VoteEntry) : ℤ :=
  v.startTime + v.durationNs

/-- Modelled from the spec: the per-session Vote Ledger (`class Votes`),
a mapping from vote kind to at most one live vote. -/
abbrev Votes := List (AdpfVoteType × VoteEntry)

/-- Lookup of the vote stored for a kind. -/
def Votes.find? (vs : Votes) (t : AdpfVoteType) : Option VoteEntry :=
  match List.find? (fun p => p.1 == t) vs with
  | some p => some p.2
  | none => none

/-- Modelled from the spec: `Votes::voteIsActive` — the stored vote's
`active` flag, `false` when no vote of that kind exists. -/
def Votes.voteIsActive (vs : Votes) (t : AdpfVoteType) : Bool :=
  match vs.find? t with
  | some e => e.active
  | none => false

/-- Modelled from the spec: `Votes::voteTimeout` — the stored vote's
deadline (`timeout(kind) -> time`). -/
def Votes.voteTimeout (vs : Votes) (t : AdpfVoteType) : ℤ :=
  match vs.find? t with
  | some e => e.timeout
  | none => 0

/-- Modelled from the spec: `Votes::add` — "upserts the vote for `kind`,
replacing any previous value and timestamp". -/
def Votes.add (vs : Votes) (t : AdpfVoteType) (e : VoteEntry) : Votes :=
  (t, e) :: List.filter (fun p => p.1 != t) vs

/-- Modelled from the spec: `Votes::setUseVote` (`setActive(kind, bool)`). -/
def Votes.setUseVote (vs : Votes) (t : AdpfVoteType) (b : Bool) : Votes :=
  List.map (fun p => if p.1 == t then (p.1, { p.2 with active := b }) else p) vs

/-- Modelled from the spec: `Votes::updateDuration` (used by
`PowerSessionManager::updateTargetWorkDuration`) — replaces the stored
vote's validity duration. -/
def Votes.updateDuration (vs : Votes) (t : AdpfVoteType) (d : ℤ) : Votes :=
  List.map (fun p => if p.1 == t then (p.1, { p.2 with durationNs := d }) else p) vs

/-- The per-session record held by the manager's session/task map
(`SessionValueEntry.h`): activity flag, power-efficiency preference, vote
ledger, and the session's thread list (the task side of `SessionTaskMap`). -/
structure SessionValueEntry where
  isActive : Bool
  isPowerEfficient : Bool
  votes : Votes
  threads : List ℤ
deriving DecidableEq, Repr

/-- The state of `PowerSessionManager` the claims touch: the session/task
map (`mSessionTaskMap`, keyed by session id) and the session callback
registry (`mSessionMap`, modelled by its key set). -/
structure ManagerState where
  sessionTaskMap : List (ℤ × SessionValueEntry)
  sessionMap : List ℤ
deriving DecidableEq, Repr

/-- `SessionTaskMap::findSession`. -/
def ManagerState.findSession (m : ManagerState) (sessionId : ℤ) :
    Option SessionValueEntry :=
  match List.find? (fun p => p.1 == sessionId) m.sessionTaskMap with
  | some p => some p.2
  | none => none

/-- Pointwise update of one session's entry. -/
def ManagerState.updateSession (m : ManagerState) (sessionId : ℤ)
    (f : SessionValueEntry → SessionValueEntry) : ManagerState :=
  { m with
    sessionTaskMap :=
      List.map (fun p => if p.1 == sessionId then (p.1, f p.2) else p)
        m.sessionTaskMap }

/-- `shouldScheduleTimeout` (`PowerSessionManager.cpp` lines 286–290):
schedule iff the slot's vote is not active, or the new deadline is strictly
earlier than the deadline already being watched. -/
def shouldScheduleTimeout (votes : Votes) (vote_id : AdpfVoteType)
    (deadline : ℤ) : Bool :=
  !votes.voteIsActive vote_id || deadline < votes.voteTimeout vote_id

/-- Modelled from the spec: `SessionTaskMap::addVote`
(`SessionTaskMap.cpp` is not under `src/`) — upserts an active vote with
the given range and validity window into the session's ledger. -/
def ManagerState.addVote (m : ManagerState) (sessionId : ℤ)
    (voteId : AdpfVoteType) (uclampMin uclampMax startTime durationNs : ℤ) :
    ManagerState :=
  m.updateSession sessionId fun s =>
    { s with votes := s.votes.add voteId ⟨true, startTime, durationNs, uclampMin, uclampMax⟩ }

/-- `PowerSessionManager::voteSet` (CPU form, `PowerSessionManager.cpp`
lines 292–323): on a live session, decide `shouldScheduleTimeout` against
the *old* ledger, upsert the vote, and schedule a timer for
`startTime + durationNs` iff the decision was positive.  The returned
option is the deadline handed to `mEventSessionTimeoutWorker.schedule`
(none when no timer is scheduled); tracing, `lastUpdatedTime` and the
uclamp resource-sink application are omitted. -/
def PowerSessionManager.voteSet (m : ManagerState) (sessionId : ℤ)
    (voteId : AdpfVoteType) (uclampMin uclampMax startTime durationNs : ℤ) :
    ManagerState × Option ℤ :=
  let timeoutDeadline := startTime + durationNs
  match m.findSession sessionId with
  | none => (m, none)
  | some session =>
      let scheduleTimeout := shouldScheduleTimeout session.votes voteId timeoutDeadline
      (m.addVote sessionId voteId uclampMin uclampMax startTime durationNs,
       if scheduleTimeout then some timeoutDeadline else none)

/-- A timeout event of the session-timeout worker
(`PowerSessionManager.h` lines 108–112). -/
structure EventSessionTimeout where
  timeStamp : ℤ
  sessionId : ℤ
  voteId : AdpfVoteType

/-- `PowerSessionManager::handleEvent` (`PowerSessionManager.cpp` lines
397–446).  Returns the new manager state, the deadline of the single
rescheduled timer (if any), and whether the thread/GPU resources are
recomputed (`recalcUclamp`, which triggers `applyCpuAndGpuVotes` and
`updateUniversalBoostMode`). -/
def PowerSessionManager.handleEvent (m : ManagerState)
    (e : EventSessionTimeout) (tNow : ℤ) : ManagerState × Option ℤ × Bool :=
  match m.findSession e.sessionId with
  | none => (m, none, false)
  | some sessVal =>
      let voteIsActive := sessVal.votes.voteIsActive e.voteId
      let voteTimeout := sessVal.votes.voteTimeout e.voteId
      if voteIsActive then
        if voteTimeout ≤ tNow then
          (m.updateSession e.sessionId
             (fun s => { s with votes := s.votes.setUseVote e.voteId false }),
           none, true)
        else
          (m, some voteTimeout, false)
      else
        (m, none, false)

/-- The per-session state a `PowerHintSession` object carries
(`PowerHintSession.h` / `AppHintDesc.h`): the closed flag, the descriptor's
target, activity flag, update counter, control variable, PID memory, the
heuristic jank state, and the thread list. -/
structure PowerHintSessionState where
  sessionId : ℤ
  mSessionClosed : Bool
  targetNs : ℤ
  is_active : Bool
  update_count : ℕ
  pidControlVariable : ℤ
  integral_error : ℤ
  previous_error : ℤ
  mJankyLevel : SessionJankyLevel
  mJankyFrameNum : ℕ
  thread_ids : List ℤ
deriving DecidableEq, Repr

/-- `PowerSessionManager::removePowerSession` (`PowerSessionManager.cpp`
lines 125–150): deactivate the session's votes (`forceSessionActive
false`), replace its thread list with `{}` (detaching every thread), remove
it from the session/task map, and unregister it from the callback registry.
The removed entry carries the intermediate deactivation with it, so the
final state is the two tables without the session. -/
def ManagerState.removePowerSession (m : ManagerState) (sessionId : ℤ) :
    ManagerState :=
  { sessionTaskMap := List.filter (fun p => p.1 != sessionId) m.sessionTaskMap,
    sessionMap := List.filter (fun x => x != sessionId) m.sessionMap }

/-- `PowerHintSession::close` (`PowerHintSession.cpp` lines 268–281): a
closed session fails with `EX_ILLEGAL_STATE` and changes nothing; otherwise
the session is marked closed, removed from the manager, and deactivated. -/
def PowerHintSession.close (s : PowerHintSessionState) (m : ManagerState) :
    Status × PowerHintSessionState × ManagerState :=
  if s.mSessionClosed then
    (Status.illegalState, s, m)
  else
    (Status.ok, { s with mSessionClosed := true, is_active := false },
     m.removePowerSession s.sessionId)

/-- `PowerSessionManager::updateTargetWorkDuration` (`PowerSessionManager.cpp`
lines 269–284): update the stored duration of the session's vote; a missing
session is ignored. -/
def ManagerState.updateTargetWorkDuration (m : ManagerState) (sessionId : ℤ)
    (voteId : AdpfVoteType) (durationNs : ℤ) : ManagerState :=
  match m.findSession sessionId with
  | none => m
  | some _ =>
      m.updateSession sessionId fun s =>
        { s with votes := s.votes.updateDuration voteId durationNs }

/-- `PowerHintSession::updateTargetWorkDuration` (`PowerHintSession.cpp`
lines 283–303): closed sessions fail with `EX_ILLEGAL_STATE`; a
non-positive duration fails with `EX_ILLEGAL_ARGUMENT`; otherwise the
target (scaled by `mTargetTimeFactor`, a `double` product truncated back to
`int64_t`) is stored and the default CPU vote's duration updated. -/
def PowerHintSession.updateTargetWorkDuration (cfg : AdpfConfig)
    (s : PowerHintSessionState) (m : ManagerState)
    (targetDurationNanos : ℤ) : Status × PowerHintSessionState × ManagerState :=
  if s.mSessionClosed then
    (Status.illegalState, s, m)
  else if targetDurationNanos ≤ 0 then
    (Status.illegalArgument, s, m)
  else
    let target := ratTrunc ((targetDurationNanos : ℚ) * cfg.mTargetTimeFactor)
    (Status.ok, { s with targetNs := target },
     m.updateTargetWorkDuration s.sessionId AdpfVoteType.CPU_VOTE_DEFAULT target)

/-- The PID output `pOut + iOut + dOut` of
`convertWorkDurationToBoostByPid` (`PowerHintSession.cpp` lines 122–129),
each term a `double` product truncated to `int64_t`.  (When `dt = 0`, i.e.
a target below 100µs, the source divides a `double` by zero; the embedding
returns the `ℚ` convention 0 there.) -/
def pidOutput (cfg : AdpfConfig) (targetNs : ℤ)
    (jankyLevel : SessionJankyLevel) (jankyFrameNum : ℕ) (len : ℕ)
    (acc : PidAcc) : ℤ :=
  let p_start := windowStart cfg.mSamplingWindowP len
  let d_start := windowStart cfg.mSamplingWindowD len
  let dt := ns_to_100us targetNs
  let pOut := ratTrunc (proportionalGain cfg jankyLevel jankyFrameNum acc.err_sum *
    (acc.err_sum : ℚ) / ((len : ℚ) - (p_start : ℚ)))
  let iOut := ratTrunc (cfg.mPidI * (acc.integral_error : ℚ))
  let dOut := ratTrunc ((if 0 < acc.derivative_sum then cfg.mPidDo else cfg.mPidDu) *
    (acc.derivative_sum : ℚ) / (dt : ℚ) / ((len : ℚ) - (d_start : ℚ)))
  pOut + iOut + dOut

/-- `PowerHintSession::reportActualWorkDuration` (`PowerHintSession.cpp`
lines 365–486), restricted to its session-local state effect.  The four
guards (lines 369–384) fire before any mutation.  On success the update
counter increments and the control variable is updated through the PID
path; `newJank` stands for the jank classification computed by
`updateHeuristicBoost` from the `SessionRecords` ring buffer (whose code is
not under `src/`), used only when heuristic boost is enabled.  Manager-side
effects (universal boost, `disableBoosts`, votes, GPU capacity) are
omitted. -/
def PowerHintSession.reportActualWorkDuration (cfg : AdpfConfig)
    (s : PowerHintSessionState) (durations : List WorkDuration)
    (newJank : SessionJankyLevel × ℕ) : Status × PowerHintSessionState :=
  if s.mSessionClosed then
    (Status.illegalState, s)
  else if s.targetNs = 0 then
    (Status.illegalState, s)
  else if durations.isEmpty then
    (Status.illegalArgument, s)
  else if !s.is_active then
    (Status.illegalState, s)
  else
    let s1 := { s with update_count := s.update_count + 1 }
    if !cfg.mPidOn then
      (Status.ok, { s1 with pidControlVariable := (cfg.mUclampMinHigh : ℤ) })
    else
      let lvl := if cfg.mHeuristicBoostOn then newJank.1 else s.mJankyLevel
      let jf := if cfg.mHeuristicBoostOn then newJank.2 else s.mJankyFrameNum
      let ds := List.map WorkDuration.durationNanos durations
      let acc := convertAcc cfg s.targetNs s.integral_error s.previous_error ds
      let output := pidOutput cfg s.targetNs lvl jf ds.length acc
      (Status.ok,
       { s1 with
         mJankyLevel := lvl
         mJankyFrameNum := jf
         integral_error := acc.integral_error
         previous_error := acc.previous_error
         pidControlVariable := nextPidControl cfg lvl jf s.pidControlVariable output })

/-- The session object built by the `PowerHintSession` constructor
(`PowerHintSession.cpp` lines 141–179): open, active, with the requested
target duration stored verbatim and the control variable seeded at
`mUclampMinInit`. -/
def makePowerHintSession (cfg : AdpfConfig) (sessionId : ℤ)
    (threadIds : List ℤ) (durationNs : ℤ) : PowerHintSessionState :=
  { sessionId := sessionId
    mSessionClosed := false
    targetNs := durationNs
    is_active := true
    update_count := 0
    pidControlVariable := (cfg.mUclampMinInit : ℤ)
    integral_error := 0
    previous_error := 0
    mJankyLevel := SessionJankyLevel.LIGHT
    mJankyFrameNum := 0
    thread_ids := threadIds }

/-- `PowerSessionManager::addPowerSession` (`PowerSessionManager.cpp`
lines 89–123): insert the session's entry (active, with an inactive default
CPU vote over the target duration) and attach its threads. -/
def ManagerState.addPowerSession (m : ManagerState) (sessionId : ℤ)
    (targetNs : ℤ) (threadIds : List ℤ) : ManagerState :=
  { m with
    sessionTaskMap :=
      (sessionId,
        { isActive := true
          isPowerEfficient := false
          votes := [(AdpfVoteType.CPU_VOTE_DEFAULT,
                     ⟨false, 0, targetNs, kUclampMin, kUclampMax⟩)]
          threads := threadIds }) :: m.sessionTaskMap }

/-- `PowerSessionManager::registerSession`. -/
def ManagerState.registerSession (m : ManagerState) (sessionId : ℤ) :
    ManagerState :=
  { m with sessionMap := sessionId :: m.sessionMap }

/-- `Power::createHintSessionWithConfig` (`Power.cpp` lines 333–353): fails
with `EX_UNSUPPORTED_OPERATION` when ADPF is unsupported and with
`EX_ILLEGAL_ARGUMENT` on an empty thread list; otherwise it constructs the
session (which registers it with the manager and seeds its initial
`CPU_LOAD_RESET` and `CPU_VOTE_DEFAULT` votes, constructor lines 168–177)
and registers it in the callback registry.  The supplied duration is not
validated anywhere on this path. -/
def Power.createHintSessionWithConfig (adpfSupported : Bool)
    (cfg : AdpfConfig) (sessionId : ℤ) (threadIds : List ℤ)
    (durationNanos : ℤ) (now : ℤ) (m : ManagerState) :
    Status × Option PowerHintSessionState × ManagerState :=
  if !adpfSupported then
    (Status.unsupportedOperation, none, m)
  else if threadIds.length = 0 then
    (Status.illegalArgument, none, m)
  else
    let s := makePowerHintSession cfg sessionId threadIds durationNanos
    let m1 := m.addPowerSession sessionId durationNanos threadIds
    let m2 := (PowerSessionManager.voteSet m1 sessionId AdpfVoteType.CPU_LOAD_RESET
      (cfg.mUclampMinInit : ℤ) kUclampMax now
      (ratTrunc ((durationNanos : ℚ) * cfg.mStaleTimeFactor / 2))).1
    let m3 := (PowerSessionManager.voteSet m2 sessionId AdpfVoteType.CPU_VOTE_DEFAULT
      (cfg.mUclampMinInit : ℤ) kUclampMax now durationNanos).1
    (Status.ok, some s, m3.registerSession sessionId)

/-- A resolved uclamp range (`UclampRange`, `AdpfTypes.h`). -/
structure UclampRange where
  uclampMin : ℤ
  uclampMax : ℤ
deriving DecidableEq, Repr

/-- Modelled from the spec: the Ledger's `resolveRange(now)`
(`Votes::getUclampRange`, `UClampVoter.cpp`, not under `src/`) — fold all
currently-active CPU-kind votes of one session into a single range by
taking the maximum of all floors and the maximum of all ceilings (a vote
counts while its validity window has not elapsed), starting from
`kUclampMin`. -/
def Votes.getUclampRange (vs : Votes) (now : ℤ) : UclampRange :=
  List.foldl
    (fun r p =>
      if p.1.isCpuVote && p.2.active && decide (now < p.2.timeout) then
        ⟨max r.uclampMin p.2.uclampMin, max r.uclampMax p.2.uclampMax⟩
      else r)
    ⟨kUclampMin, kUclampMin⟩ vs

/-- Modelled from the spec: `SessionTaskMap::getTaskVoteRange`
(`SessionTaskMap.cpp`, not under `src/`), the `resolveThreadRange` of the
spec — iterate every session associated with `tid` that is active (not
paused), resolve each session's ledger range, combine by overall maximum
floor and maximum ceiling; when every contributing session prefers
power-efficiency, cap the ceiling at `efficientBase + efficientOffset`. -/
def SessionTaskMap.getTaskVoteRange (m : ManagerState) (tid : ℤ) (now : ℤ)
    (efficientBase efficientOffset : Option ℤ) : UclampRange :=
  let contributing := List.filter
    (fun p => p.2.isActive && List.contains p.2.threads tid) m.sessionTaskMap
  let range := List.foldl
    (fun r p =>
      let sr := Votes.getUclampRange p.2.votes now
      ⟨max r.uclampMin sr.uclampMin, max r.uclampMax sr.uclampMax⟩)
    ⟨kUclampMin, kUclampMin⟩ contributing
  let allEfficient := !contributing.isEmpty &&
    List.all contributing (fun p => p.2.isPowerEfficient)
  match efficientBase, efficientOffset with
  | some b, some o =>
      if allEfficient then ⟨range.uclampMin, min range.uclampMax (b + o)⟩
      else range
  | _, _ => range

/-- The intermediate accumulator states of the PID loop of
`convertWorkDurationToBoostByPid` for a batch of reported durations (same
window setup as `convertAcc`, one accumulator per executed iteration). -/
def convertScan (cfg : AdpfConfig) (targetNs integral0 prev0 : ℤ)
    (durations : List ℤ) : List PidAcc :=
  let len := durations.length
  let p_start := windowStart cfg.mSamplingWindowP len
  let i_start := windowStart cfg.mSamplingWindowI len
  let d_start := windowStart cfg.mSamplingWindowD len
  let m0 := min p_start (min i_start d_start)
  let dt := ns_to_100us targetNs
  pidScanFrom cfg dt p_start i_start d_start m0 ⟨0, 0, integral0, prev0⟩
    ((pidErrors targetNs durations).drop m0)

/-- A concrete tunable profile in the style of a Pixel `powerhint.json`
ADPF profile, used to evaluate the definitions at concrete inputs. -/
def testConfig : AdpfConfig :=
  { mPidOn := true
    mPidPo := 5
    mPidPu := 3
    mPidI := 1 / 1000
    mPidIHigh := 512
    mPidILow := -120
    mPidDo := 500
    mPidDu := 0
    mUclampMinInit := 200
    mUclampMinHigh := 450
    mUclampMinLow := 2
    mSamplingWindowP := 1
    mSamplingWindowI := 0
    mSamplingWindowD := 1
    mReportingRateLimitNs := 166666660
    mTargetTimeFactor := 1
    mStaleTimeFactor := 20
    mHeuristicBoostOn := true
    mHBoostModerateJankThreshold := 2
    mHBoostOffMaxAvgDurRatio := 4
    mHBoostSevereJankPidPu := 2
    mHBoostSevereJankThreshold := 6
    mHBoostUclampMinCeilingRange := (480, 800)
    mHBoostUclampMinFloorRange := (200, 400)
    mUclampMaxEfficientBase := some 300
    mUclampMaxEfficientOffset := some 300 }

/-- The empty manager state. -/
def emptyManager : ManagerState := ⟨[], []⟩

/-- C1: the claim asserts that whenever the frame rate is not low and the
missed-cycle count is below the moderate threshold, a max/avg ratio above
the configured bound escalates the level to MODERATE.  The code keeps the
level at LIGHT whenever the previous level is LIGHT, regardless of the
ratio: with previous level LIGHT, 0 missed cycles (below the threshold 2),
ratio 5 (above the bound 4) and the low-frame-rate flag clear, the
classifier returns LIGHT, not MODERATE. -/
theorem C1_jank_counterexample :
    (0 < testConfig.mHBoostModerateJankThreshold) ∧
    (testConfig.mHBoostOffMaxAvgDurRatio < 5) ∧
    updateSessionJankState testConfig SessionJankyLevel.LIGHT 0 5 false =
      SessionJankyLevel.LIGHT ∧
    SessionJankyLevel.LIGHT ≠ SessionJankyLevel.MODERATE := by
  refine ⟨by decide, by norm_num [testConfig], by decide, by decide⟩

/-- C1 (amended): the jank classifier, case by case.  A low frame rate
forces LIGHT.  Otherwise, below the moderate threshold the level stays
LIGHT when the previous level was LIGHT or the max/avg ratio is below the
configured bound, and becomes MODERATE only when the previous level was
not LIGHT and the ratio is at or above the bound.  Between the thresholds
the level is MODERATE, and at or above the severe threshold SEVERE. -/
theorem C1_jank_classifier (cfg : AdpfConfig) (old : SessionJankyLevel)
    (jank : ℕ) (ratio : ℚ) (lowFPS : Bool)
    (hms : cfg.mHBoostModerateJankThreshold ≤ cfg.mHBoostSevereJankThreshold) :
    (lowFPS = true →
      updateSessionJankState cfg old jank ratio lowFPS = SessionJankyLevel.LIGHT) ∧
    (lowFPS = false → jank < cfg.mHBoostModerateJankThreshold →
      ((old = SessionJankyLevel.LIGHT ∨ ratio < cfg.mHBoostOffMaxAvgDurRatio) →
        updateSessionJankState cfg old jank ratio lowFPS = SessionJankyLevel.LIGHT) ∧
      (old ≠ SessionJankyLevel.LIGHT → cfg.mHBoostOffMaxAvgDurRatio ≤ ratio →
        updateSessionJankState cfg old jank ratio lowFPS = SessionJankyLevel.MODERATE)) ∧
    (lowFPS = false → cfg.mHBoostModerateJankThreshold ≤ jank →
      jank < cfg.mHBoostSevereJankThreshold →
      updateSessionJankState cfg old jank ratio lowFPS = SessionJankyLevel.MODERATE) ∧
    (lowFPS = false → cfg.mHBoostSevereJankThreshold ≤ jank →
      updateSessionJankState cfg old jank ratio lowFPS = SessionJankyLevel.SEVERE) := by
  unfold updateSessionJankState
  refine ⟨fun h => by simp [h], fun h hlt => ?_, fun h hge hlt => ?_, fun h hge => ?_⟩
  · constructor
    · intro hor
      simp only [h, if_pos hlt, Bool.false_eq_true, if_false]
      simp [hor]
    · intro hne hle
      simp only [h, if_pos hlt, Bool.false_eq_true, if_false]
      rw [if_neg]
      push_neg
      exact ⟨hne, hle⟩
  · simp only [h, Bool.false_eq_true, if_false, if_neg (Nat.not_lt.mpr hge), if_pos hlt]
  · simp only [h, Bool.false_eq_true, if_false,
      if_neg (Nat.not_lt.mpr (le_trans hms hge)), if_neg (Nat.not_lt.mpr hge)]

/-- Witness for `C1_jank_classifier` at the concrete profile: a session
previously at MODERATE with 0 missed cycles but ratio 5 ≥ bound stays at
MODERATE, and 7 ≥ severe threshold 6 missed cycles give SEVERE. -/
theorem C1_jank_classifier_witness :
    updateSessionJankState testConfig SessionJankyLevel.MODERATE 0 5 false =
      SessionJankyLevel.MODERATE ∧
    updateSessionJankState testConfig SessionJankyLevel.LIGHT 7 0 false =
      SessionJankyLevel.SEVERE := by
  constructor
  · exact ((C1_jank_classifier testConfig SessionJankyLevel.MODERATE 0 5 false
      (by decide)).2.1 rfl (by decide)).2 (by decide) (by norm_num [testConfig])
  · exact (C1_jank_classifier testConfig SessionJankyLevel.LIGHT 7 0 false
      (by decide)).2.2.2 rfl (by decide)

/-- C2: counterexample.  `createHintSessionWithConfig` never validates the
supplied target duration: with ADPF supported and a nonempty thread list,
the non-positive duration −5 ns is accepted — the call returns `ok` and a
session object, instead of the invalid-argument failure the claim
requires. -/
theorem C2_create_counterexample :
    (Power.createHintSessionWithConfig true testConfig 1 [10] (-5) 0
      emptyManager).1 = Status.ok ∧
    (Power.createHintSessionWithConfig true testConfig 1 [10] (-5) 0
      emptyManager).2.1.isSome = true ∧
    Status.ok ≠ Status.illegalArgument := by
  refine ⟨rfl, rfl, by decide⟩

/-- C2 (amended): `updateTargetWorkDuration` on an open session rejects a
non-positive duration synchronously with `EX_ILLEGAL_ARGUMENT`, leaving
both the session and the manager state unchanged; `create`
(`createHintSessionWithConfig`) performs no duration validation and
succeeds for any duration when ADPF is supported and the thread list is
nonempty. -/
theorem C2_target_validation (cfg : AdpfConfig) (s : PowerHintSessionState)
    (m : ManagerState) (d sid now : ℤ) (tids : List ℤ)
    (hopen : s.mSessionClosed = false) (hd : d ≤ 0) (htids : tids ≠ []) :
    PowerHintSession.updateTargetWorkDuration cfg s m d =
      (Status.illegalArgument, s, m) ∧
    (Power.createHintSessionWithConfig true cfg sid tids d now m).1 =
      Status.ok := by
  constructor
  · unfold PowerHintSession.updateTargetWorkDuration
    rw [if_neg (by simp [hopen]), if_pos hd]
  · unfold Power.createHintSessionWithConfig
    rw [if_neg (by simp), if_neg (by simpa using htids)]

/-- Witness for `C2_target_validation` at concrete inputs. -/
theorem C2_target_validation_witness :
    PowerHintSession.updateTargetWorkDuration testConfig
      (makePowerHintSession testConfig 1 [10] 16000000) emptyManager 0 =
      (Status.illegalArgument, makePowerHintSession testConfig 1 [10] 16000000,
       emptyManager) ∧
    (Power.createHintSessionWithConfig true testConfig 1 [10] 0 0
      emptyManager).1 = Status.ok :=
  C2_target_validation testConfig _ emptyManager 0 1 0 [10] rfl
    (by decide) (by decide)

/-- `find?` by key on a list filtered to exclude that key yields nothing. -/
theorem find?_filter_bne {α β : Type} [DecidableEq α] (l : List (α × β))
    (k : α) :
    List.find? (fun p => p.1 == k) (List.filter (fun p => p.1 != k) l) =
      none := by
  rw [List.find?_eq_none]
  intro x hx
  simp only [List.mem_filter, bne_iff_ne, ne_eq] at hx
  simp [hx.2]

/-- C3: the first `close` of an open session succeeds — the session is
marked closed and deactivated, and it is removed from the manager's
session/task map and callback registry — and closing any already-closed
session always fails with `EX_ILLEGAL_STATE` and changes nothing (so every
close after the first fails this way, the state staying as the first close
left it). -/
theorem C3_close_idempotent (s : PowerHintSessionState) (m : ManagerState)
    (hopen : s.mSessionClosed = false) :
    (PowerHintSession.close s m).1 = Status.ok ∧
    (PowerHintSession.close s m).2.1.mSessionClosed = true ∧
    (PowerHintSession.close s m).2.1.is_active = false ∧
    (PowerHintSession.close s m).2.2.findSession s.sessionId = none ∧
    s.sessionId ∉ (PowerHintSession.close s m).2.2.sessionMap ∧
    ∀ s' : PowerHintSessionState, ∀ m' : ManagerState,
      s'.mSessionClosed = true →
      PowerHintSession.close s' m' = (Status.illegalState, s', m') := by
  unfold PowerHintSession.close
  rw [if_neg (by simp [hopen])]
  refine ⟨rfl, rfl, rfl, ?_, ?_, ?_⟩
  · unfold ManagerState.removePowerSession ManagerState.findSession
    rw [find?_filter_bne]
  · unfold ManagerState.removePowerSession
    simp
  · intro s' m' hclosed
    rw [if_pos hclosed]

/-- Witness for `C3_close_idempotent`: the first close of a freshly created
session succeeds. -/
theorem C3_close_idempotent_witness :
    (PowerHintSession.close (makePowerHintSession testConfig 7 [10] 16000000)
      (ManagerState.registerSession
        (ManagerState.addPowerSession emptyManager 7 16000000 [10]) 7)).1 =
      Status.ok :=
  (C3_close_idempotent _ _ rfl).1

/-- C4: for any finite sequence of successful `reportActualWorkDuration`
calls with PID control on, the control variable after every call lies
within the effective `[floor, ceiling]` bounds of that call (the base
uclamp bounds, heuristic-boost-widened at MODERATE/SEVERE jank), provided
those effective bounds form a nonempty interval. -/
theorem C4_pid_bounded (cfg : AdpfConfig) (pid0 : ℤ)
    (steps : List (SessionJankyLevel × ℕ × ℤ))
    (hPid : cfg.mPidOn = true)
    (hB : ∀ st ∈ steps,
      ((effUclampBounds cfg st.1 st.2.1).1 : ℤ) ≤
        ((effUclampBounds cfg st.1 st.2.1).2 : ℤ)) :
    List.Forall₂
      (fun st p => ((effUclampBounds cfg st.1 st.2.1).1 : ℤ) ≤ p ∧
        p ≤ ((effUclampBounds cfg st.1 st.2.1).2 : ℤ))
      steps (runReports cfg pid0 steps) := by
  induction steps generalizing pid0 with
  | nil => exact List.Forall₂.nil
  | cons st rest ih =>
      refine List.Forall₂.cons ?_ (ih _ (fun x hx => hB x (List.mem_cons_of_mem _ hx)))
      have hb := hB st (List.mem_cons_self _ _)
      unfold reportStepPid nextPidControl
      rw [if_pos hPid]
      exact ⟨le_max_left _ _, max_le hb (min_le_left _ _)⟩

/-- Witness for `C4_pid_bounded`: two reports, one at LIGHT jank with a
large positive PID output and one at SEVERE jank with a large negative
output, both land inside the effective bounds. -/
theorem C4_pid_bounded_witness :
    List.Forall₂
      (fun st p => ((effUclampBounds testConfig st.1 st.2.1).1 : ℤ) ≤ p ∧
        p ≤ ((effUclampBounds testConfig st.1 st.2.1).2 : ℤ))
      [(SessionJankyLevel.LIGHT, 0, 100000), (SessionJankyLevel.SEVERE, 7, -100000)]
      (runReports testConfig 200
        [(SessionJankyLevel.LIGHT, 0, 100000), (SessionJankyLevel.SEVERE, 7, -100000)]) :=
  C4_pid_bounded testConfig 200
    [(SessionJankyLevel.LIGHT, 0, 100000), (SessionJankyLevel.SEVERE, 7, -100000)]
    rfl (by decide)

/-- C5: `voteSet` on a live session schedules a new expiry timer for the
`(session, vote-kind)` slot exactly when the slot's vote is currently not
active or the new deadline `startTime + duration` is strictly earlier than
the deadline currently recorded for the slot; otherwise no timer is
scheduled (the pending one keeps watching the slot). -/
theorem C5_voteSet_schedule_rule (m : ManagerState) (sid : ℤ)
    (vid : AdpfVoteType) (umin umax start dur : ℤ) (sve : SessionValueEntry)
    (hfind : m.findSession sid = some sve) :
    ((PowerSessionManager.voteSet m sid vid umin umax start dur).2 =
        some (start + dur) ↔
      (Votes.voteIsActive sve.votes vid = false ∨
        start + dur < Votes.voteTimeout sve.votes vid)) ∧
    ((PowerSessionManager.voteSet m sid vid umin umax start dur).2 = none ↔
      (Votes.voteIsActive sve.votes vid = true ∧
        Votes.voteTimeout sve.votes vid ≤ start + dur)) := by
  unfold PowerSessionManager.voteSet
  rw [hfind]
  simp only [shouldScheduleTimeout]
  by_cases hact : Votes.voteIsActive sve.votes vid = true
  · by_cases hlt : start + dur < Votes.voteTimeout sve.votes vid
    · simp [hact, hlt]
    · simp [hact, hlt, not_lt.mp hlt]
  · simp only [Bool.not_eq_true] at hact
    simp [hact]

/-- A concrete session entry with one active `CPU_LOAD_UP` vote valid on
`[0, 100)`, used as evaluation input. -/
def sampleEntry : SessionValueEntry :=
  { isActive := true
    isPowerEfficient := false
    votes := [(AdpfVoteType.CPU_LOAD_UP, ⟨true, 0, 100, 300, 1024⟩)]
    threads := [42] }

/-- A one-session manager state holding `sampleEntry` under session id 3. -/
def sampleManager : ManagerState := ⟨[(3, sampleEntry)], [3]⟩

/-- Witness for `C5_voteSet_schedule_rule`: refreshing an active vote with
a later deadline schedules no new timer. -/
theorem C5_voteSet_schedule_rule_witness :
    (PowerSessionManager.voteSet sampleManager
      3 AdpfVoteType.CPU_LOAD_UP 300 1024 50 100).2 = none :=
  ((C5_voteSet_schedule_rule sampleManager 3 AdpfVoteType.CPU_LOAD_UP 300 1024
    50 100 sampleEntry (by decide)).2).mpr (by decide)

/-- C6: a timeout event for `(sessionId, voteId)` is handled as follows —
a missing session is a no-op; an inactive vote is a no-op; an active vote
whose re-read deadline is at or before now is deactivated and resources
are recomputed, with no timer scheduled; an active vote whose deadline is
still in the future causes exactly one new timer at that deadline and no
other change. -/
theorem C6_handleEvent_cases (m : ManagerState) (e : EventSessionTimeout)
    (tNow : ℤ) :
    (m.findSession e.sessionId = none →
      PowerSessionManager.handleEvent m e tNow = (m, none, false)) ∧
    (∀ sve, m.findSession e.sessionId = some sve →
      (Votes.voteIsActive sve.votes e.voteId = false →
        PowerSessionManager.handleEvent m e tNow = (m, none, false)) ∧
      (Votes.voteIsActive sve.votes e.voteId = true →
        Votes.voteTimeout sve.votes e.voteId ≤ tNow →
        PowerSessionManager.handleEvent m e tNow =
          (m.updateSession e.sessionId
            (fun s => { s with votes := Votes.setUseVote s.votes e.voteId false }),
           none, true)) ∧
      (Votes.voteIsActive sve.votes e.voteId = true →
        tNow < Votes.voteTimeout sve.votes e.voteId →
        PowerSessionManager.handleEvent m e tNow =
          (m, some (Votes.voteTimeout sve.votes e.voteId), false))) := by
  constructor
  · intro hnone
    unfold PowerSessionManager.handleEvent
    rw [hnone]
  · intro sve hfind
    refine ⟨fun hact => ?_, fun hact hle => ?_, fun hact hgt => ?_⟩
    · unfold PowerSessionManager.handleEvent
      rw [hfind]
      simp [hact]
    · unfold PowerSessionManager.handleEvent
      rw [hfind]
      simp [hact, hle]
    · unfold PowerSessionManager.handleEvent
      rw [hfind]
      simp [hact, not_le.mpr hgt]

/-- Witness for `C6_handleEvent_cases`: a fired timeout whose vote deadline
has passed deactivates the vote and triggers a recompute. -/
theorem C6_handleEvent_cases_witness :
    PowerSessionManager.handleEvent sampleManager
      ⟨0, 3, AdpfVoteType.CPU_LOAD_UP⟩ 150 =
      (ManagerState.updateSession sampleManager 3
        (fun s => { s with votes := Votes.setUseVote s.votes AdpfVoteType.CPU_LOAD_UP false }),
       none, true) :=
  (((C6_handleEvent_cases sampleManager ⟨0, 3, AdpfVoteType.CPU_LOAD_UP⟩ 150).2
    sampleEntry (by decide)).2.1) (by decide) (by decide)

/-- A profile whose severe-jank gain is larger than the undershoot gain,
exercising the `min` in `pid_pu_active`. -/
def testConfigHighSevere : AdpfConfig :=
  { testConfig with mHBoostSevereJankPidPu := 9 }

/-- C7: counterexample.  The claim says that at SEVERE jank the severe-jank
gain is used outright; the code uses `hboostPidPu = min(mHBoostSevereJankPidPu,
mPidPu)`.  With severe-jank gain 9 and undershoot gain 3, the applied
undershoot gain at SEVERE level is 3, not 9. -/
theorem C7_gain_counterexample :
    testConfigHighSevere.mHeuristicBoostOn = true ∧
    testConfigHighSevere.mPidPu < testConfigHighSevere.mHBoostSevereJankPidPu ∧
    proportionalGain testConfigHighSevere SessionJankyLevel.SEVERE 7 (-1) =
      testConfigHighSevere.mPidPu ∧
    proportionalGain testConfigHighSevere SessionJankyLevel.SEVERE 7 (-1) ≠
      testConfigHighSevere.mHBoostSevereJankPidPu := by
  refine ⟨rfl, by norm_num [testConfigHighSevere, testConfig], ?_, ?_⟩
  · show (if _ then _ else _) = _
    norm_num [proportionalGain, pid_pu_active, testConfigHighSevere, testConfig]
  · norm_num [proportionalGain, pid_pu_active, testConfigHighSevere, testConfig]

/-- C7 (amended): with heuristic boost enabled, the proportional gain is
the overshoot gain when the windowed error sum is positive; otherwise it is
the undershoot gain at LIGHT jank, the capped severe-jank gain
`min(severeJankPidPu, pidPu)` at SEVERE jank, and at MODERATE jank the
undershoot gain blended toward that capped gain by the factor that is 0
below the moderate jank threshold and
`(jankFrames − moderateThreshold)/(severeThreshold − moderateThreshold)`
at or above it. -/
theorem C7_gain_blend (cfg : AdpfConfig) (lvl : SessionJankyLevel) (jf : ℕ)
    (err_sum : ℤ) (hb : cfg.mHeuristicBoostOn = true) :
    (0 < err_sum → proportionalGain cfg lvl jf err_sum = cfg.mPidPo) ∧
    (err_sum ≤ 0 →
      (lvl = SessionJankyLevel.LIGHT →
        proportionalGain cfg lvl jf err_sum = cfg.mPidPu) ∧
      (lvl = SessionJankyLevel.SEVERE →
        proportionalGain cfg lvl jf err_sum =
          min cfg.mHBoostSevereJankPidPu cfg.mPidPu) ∧
      (lvl = SessionJankyLevel.MODERATE →
        jf < cfg.mHBoostModerateJankThreshold →
        proportionalGain cfg lvl jf err_sum = cfg.mPidPu) ∧
      (lvl = SessionJankyLevel.MODERATE →
        cfg.mHBoostModerateJankThreshold ≤ jf →
        proportionalGain cfg lvl jf err_sum =
          cfg.mPidPu + (((jf : ℚ) - (cfg.mHBoostModerateJankThreshold : ℚ)) /
            ((cfg.mHBoostSevereJankThreshold : ℚ) -
              (cfg.mHBoostModerateJankThreshold : ℚ))) *
            (min cfg.mHBoostSevereJankPidPu cfg.mPidPu - cfg.mPidPu))) := by
  constructor
  · intro h
    simp [proportionalGain, h]
  · intro h
    have hno : ¬ (0 < err_sum) := not_lt.mpr h
    refine ⟨fun hlvl => ?_, fun hlvl => ?_, fun hlvl hjf => ?_, fun hlvl hjf => ?_⟩
    · subst hlvl
      simp [proportionalGain, pid_pu_active, hb, hno]
    · subst hlvl
      simp [proportionalGain, pid_pu_active, hb, hno]
    · subst hlvl
      simp [proportionalGain, pid_pu_active, hb, hno, jankyFactor, hjf]
    · subst hlvl
      simp [proportionalGain, pid_pu_active, hb, hno, jankyFactor,
        Nat.not_lt.mpr hjf]

/-- Witness for `C7_gain_blend`: at SEVERE jank with a non-positive error
sum, the concrete profile's applied gain is the capped severe-jank gain. -/
theorem C7_gain_blend_witness :
    proportionalGain testConfig SessionJankyLevel.SEVERE 7 (-1) =
      min testConfig.mHBoostSevereJankPidPu testConfig.mPidPu :=
  ((C7_gain_blend testConfig SessionJankyLevel.SEVERE 7 (-1) rfl).2
    (by decide)).2.1 rfl

/-- Every intermediate accumulator of the PID loop keeps its integral error
within the clamp bounds, provided the bounds are ordered and the incoming
integral is within them (samples outside the I window leave it unchanged;
samples inside re-clamp it). -/
theorem pidScanFrom_integral_bounded (cfg : AdpfConfig) (dt : ℤ)
    (pS iS dS : ℕ) (hLH : cfg.getPidILowDivI ≤ cfg.getPidIHighDivI) :
    ∀ (errors : List ℤ) (idx : ℕ) (acc : PidAcc),
      cfg.getPidILowDivI ≤ acc.integral_error →
      acc.integral_error ≤ cfg.getPidIHighDivI →
      ∀ a ∈ pidScanFrom cfg dt pS iS dS idx acc errors,
        cfg.getPidILowDivI ≤ a.integral_error ∧
          a.integral_error ≤ cfg.getPidIHighDivI := by
  intro errors
  induction errors with
  | nil =>
      intro idx acc h1 h2 a ha
      simp [pidScanFrom] at ha
  | cons e rest ih =>
      intro idx acc h1 h2 a ha
      have hstep : cfg.getPidILowDivI ≤
            (pidStep cfg dt pS iS dS idx acc e).integral_error ∧
          (pidStep cfg dt pS iS dS idx acc e).integral_error ≤
            cfg.getPidIHighDivI := by
        unfold pidStep
        by_cases hin : iS ≤ idx
        · simp only [hin, if_true]
          exact ⟨le_max_left _ _, max_le hLH (min_le_left _ _)⟩
        · simp only [hin, if_false]
          exact ⟨h1, h2⟩
      rw [pidScanFrom] at ha
      rcases List.mem_cons.mp ha with hhead | htail
      · subst hhead
        exact hstep
      · exact ih (idx + 1) _ hstep.1 hstep.2 a htail

/-- `ratTrunc` is the identity on integers. -/
theorem ratTrunc_intCast (n : ℤ) : ratTrunc (n : ℚ) = n := by
  simp [ratTrunc, Int.tdiv_one]

/-- The concrete profile's lower integral clamp, `PidILow/PidI`. -/
theorem testConfig_pidILowDiv : testConfig.getPidILowDivI = -120000 := by
  have h : ((testConfig.mPidILow : ℚ) / testConfig.mPidI) = ((-120000 : ℤ) : ℚ) := by
    norm_num [testConfig]
  rw [AdpfConfig.getPidILowDivI, h, ratTrunc_intCast]

/-- The concrete profile's upper integral clamp, `PidIHigh/PidI`. -/
theorem testConfig_pidIHighDiv : testConfig.getPidIHighDivI = 512000 := by
  have h : ((testConfig.mPidIHigh : ℚ) / testConfig.mPidI) = ((512000 : ℤ) : ℚ) := by
    norm_num [testConfig]
  rw [AdpfConfig.getPidIHighDivI, h, ratTrunc_intCast]

/-- C8: during PID processing of a report batch, after every processed
sample the session's accumulated integral error lies within the configured
clamp bounds `[PidILow/PidI, PidIHigh/PidI]`, for any batch and any
incoming integral value that is itself within bounds (the bounds being
ordered). -/
theorem C8_integral_clamped (cfg : AdpfConfig) (targetNs integral0 prev0 : ℤ)
    (durations : List ℤ)
    (hLH : cfg.getPidILowDivI ≤ cfg.getPidIHighDivI)
    (h0l : cfg.getPidILowDivI ≤ integral0)
    (h0h : integral0 ≤ cfg.getPidIHighDivI) :
    ∀ a ∈ convertScan cfg targetNs integral0 prev0 durations,
      cfg.getPidILowDivI ≤ a.integral_error ∧
        a.integral_error ≤ cfg.getPidIHighDivI := by
  intro a ha
  exact pidScanFrom_integral_bounded cfg _ _ _ _ hLH _ _
    ⟨0, 0, integral0, prev0⟩ h0l h0h a ha

/-- Witness for `C8_integral_clamped`: the accumulator state after the
single on-target sample of a concrete batch has its integral within the
profile's clamp bounds. -/
theorem C8_integral_clamped_witness :
    testConfig.getPidILowDivI ≤ (PidAcc.mk 0 0 0 0).integral_error ∧
      (PidAcc.mk 0 0 0 0).integral_error ≤ testConfig.getPidIHighDivI := by
  have hscan : convertScan testConfig 16666666 0 0 [16666666] =
      [⟨0, 0, 0, 0⟩] := by
    simp only [convertScan, pidErrors, ns_to_100us, windowStart, pidScanFrom,
      pidStep, testConfig_pidILowDiv, testConfig_pidIHighDiv, List.map,
      List.drop, List.length]
    norm_num [testConfig]
  exact C8_integral_clamped testConfig 16666666 0 0 [16666666]
    (by rw [testConfig_pidILowDiv, testConfig_pidIHighDiv]; decide)
    (by rw [testConfig_pidILowDiv]; decide)
    (by rw [testConfig_pidIHighDiv]; decide)
    ⟨0, 0, 0, 0⟩ (by rw [hscan]; exact List.mem_singleton_self _)

/-- Scenario session 1: active, voting `[200, 800]` on thread 42. -/
def scenarioSession1 : SessionValueEntry :=
  { isActive := true
    isPowerEfficient := false
    votes := [(AdpfVoteType.CPU_VOTE_DEFAULT, ⟨true, 0, 100, 200, 800⟩)]
    threads := [42] }

/-- Scenario session 2: active, voting `[100, 1000]` on thread 42. -/
def scenarioSession2 : SessionValueEntry :=
  { isActive := true
    isPowerEfficient := false
    votes := [(AdpfVoteType.CPU_VOTE_DEFAULT, ⟨true, 0, 100, 100, 1000⟩)]
    threads := [42] }

/-- Scenario session 3: paused (inactive), voting `[500, 1200]` on
thread 42. -/
def scenarioSession3 : SessionValueEntry :=
  { isActive := false
    isPowerEfficient := false
    votes := [(AdpfVoteType.CPU_VOTE_DEFAULT, ⟨true, 0, 100, 500, 1200⟩)]
    threads := [42] }

/-- C9: resolving the uclamp range of a thread shared by several sessions —
with session 1 voting `[200, 800]` and session 2 voting `[100, 1000]` the
resolved range is `[200, 1000]` (maximum floor, maximum ceiling); a paused
(inactive) session voting `[500, 1200]` contributes nothing; when every
contributing session prefers power-efficiency the ceiling is additionally
capped at `efficientBase + efficientOffset` (700 + 100 caps 1000 to 800),
while a single non-efficient contributor disables the cap. -/
theorem C9_thread_range_aggregation :
    SessionTaskMap.getTaskVoteRange
      ⟨[(1, scenarioSession1), (2, scenarioSession2)], [1, 2]⟩ 42 50 none none =
      ⟨200, 1000⟩ ∧
    SessionTaskMap.getTaskVoteRange
      ⟨[(1, scenarioSession1), (2, scenarioSession2), (3, scenarioSession3)],
       [1, 2, 3]⟩ 42 50 none none = ⟨200, 1000⟩ ∧
    SessionTaskMap.getTaskVoteRange
      ⟨[(1, { scenarioSession1 with isPowerEfficient := true }),
        (2, { scenarioSession2 with isPowerEfficient := true })], [1, 2]⟩
      42 50 (some 700) (some 100) = ⟨200, 800⟩ ∧
    SessionTaskMap.getTaskVoteRange
      ⟨[(1, { scenarioSession1 with isPowerEfficient := true }),
        (2, scenarioSession2)], [1, 2]⟩ 42 50 (some 700) (some 100) =
      ⟨200, 1000⟩ := by
  refine ⟨by decide, by decide, by decide, by decide⟩

/-- A freshly created 16 ms session put into the paused state. -/
def pausedSession : PowerHintSessionState :=
  { makePowerHintSession testConfig 1 [10] 16000000 with is_active := false }

/-- C10: counterexample.  The claim asserts every `reportActualWorkDuration`
on an open, target-configured but paused session fails with an
illegal-state error; with an empty batch the empty-durations check fires
first (it precedes the activity check), so the call fails with
`EX_ILLEGAL_ARGUMENT` instead. -/
theorem C10_report_counterexample :
    pausedSession.mSessionClosed = false ∧
    pausedSession.targetNs ≠ 0 ∧
    pausedSession.is_active = false ∧
    PowerHintSession.reportActualWorkDuration testConfig pausedSession []
      (SessionJankyLevel.LIGHT, 0) = (Status.illegalArgument, pausedSession) ∧
    Status.illegalArgument ≠ Status.illegalState := by
  refine ⟨rfl, by decide, rfl, by decide, by decide⟩

/-- C10 (amended): on an open session with a target set, a
`reportActualWorkDuration` call carrying a nonempty batch while the session
is paused (inactive) fails with `EX_ILLEGAL_STATE` and changes no session
state. -/
theorem C10_report_paused (cfg : AdpfConfig) (s : PowerHintSessionState)
    (durations : List WorkDuration) (newJank : SessionJankyLevel × ℕ)
    (hopen : s.mSessionClosed = false) (htarget : s.targetNs ≠ 0)
    (hne : durations ≠ []) (hpaused : s.is_active = false) :
    PowerHintSession.reportActualWorkDuration cfg s durations newJank =
      (Status.illegalState, s) := by
  unfold PowerHintSession.reportActualWorkDuration
  rw [if_neg (by simp [hopen]), if_neg htarget,
    if_neg (by simp [List.isEmpty_iff, hne]), if_pos (by simp [hpaused])]

/-- Witness for `C10_report_paused`: a one-sample report on the paused
session is rejected with an illegal-state error. -/
theorem C10_report_paused_witness :
    PowerHintSession.reportActualWorkDuration testConfig pausedSession
      [⟨33333333, 0, 0⟩] (SessionJankyLevel.LIGHT, 0) =
      (Status.illegalState, pausedSession) :=
  C10_report_paused testConfig pausedSession [⟨33333333, 0, 0⟩]
    (SessionJankyLevel.LIGHT, 0) rfl (by decide) (by decide) rfl
